import Mathlib

/-!
Verification of the multilang voice-note worker pipeline.

This file gives a shallow embedding, in Lean, of the core job pipeline of the
repository (the production multilang worker, the language handler, the
summarization client post-processing, and the credit/dedup helpers in db.py),
and proves properties of the embedded definitions.

Conventions of the embedding:
* Python strings are modelled as `List Char` (sequences of Unicode scalar
  values) where character-level operations matter, and as `String` for opaque
  identifiers (language codes, job states, phone numbers).
* The relational store is modelled as explicit record values threaded through
  the functions; a SQL `UPDATE ... WHERE id = x` on the single row of interest
  becomes a record update, and a conditional update (`WHERE ... IS NULL`)
  becomes a guarded record update whose guard mirrors the SQL predicate.
* Calls to external collaborators (HTTP download, speech-to-text,
  the chat-completion model, message delivery) are modelled as explicit
  parameters: the downloaded payload size, the transcription result, and the
  summarization result are inputs; outbound messages are collected in a list,
  in send order.
* Python floats used for credit balances are modelled as exact rationals;
  timestamps are integers (`NOW()` is a parameter).
-/

/-! ## Python text primitives -/

/-- Unicode whitespace as recognized by Python `str.strip()`. -/
def pyIsSpace (c : Char) : Bool :=
  decide (c.toNat ∈ ([9, 10, 11, 12, 13, 28, 29, 30, 31, 32, 133, 160,
      0x1680, 0x2028, 0x2029, 0x202F, 0x205F, 0x3000] : List Nat)
    ∨ (0x2000 ≤ c.toNat ∧ c.toNat ≤ 0x200A))

/-- Python `str.strip()`: remove leading and trailing whitespace. -/
def pyStrip (l : List Char) : List Char :=
  ((l.dropWhile pyIsSpace).reverse.dropWhile pyIsSpace).reverse

/-- Base code points of the Unicode 15.0 decimal-digit (category Nd) ranges,
each covering exactly the ten code points base..base+9.  CPython `int()`
accepts any of these as a digit, via `Py_UNICODE_TODECIMAL`. -/
def pyDigitBases : List Nat :=
  [0x30, 0x660, 0x6F0, 0x7C0, 0x966, 0x9E6, 0xA66, 0xAE6, 0xB66, 0xBE6,
   0xC66, 0xCE6, 0xD66, 0xDE6, 0xE50, 0xED0, 0xF20, 0x1040, 0x1090, 0x17E0,
   0x1810, 0x1946, 0x19D0, 0x1A80, 0x1A90, 0x1B50, 0x1BB0, 0x1C40, 0x1C50,
   0xA620, 0xA8D0, 0xA900, 0xA9D0, 0xA9F0, 0xAA50, 0xABF0, 0xFF10,
   0x104A0, 0x10D30, 0x11066, 0x110F0, 0x11136, 0x111D0, 0x112F0, 0x11450,
   0x114D0, 0x11650, 0x116C0, 0x11730, 0x118E0, 0x11950, 0x11C50, 0x11D50,
   0x11DA0, 0x11F50, 0x16A60, 0x16AC0, 0x16B50, 0x1D7CE, 0x1D7D8, 0x1D7E2,
   0x1D7EC, 0x1D7F6, 0x1E140, 0x1E2F0, 0x1E4F0, 0x1E950, 0x1FBF0]

/-- The decimal value of a character, when it is a Unicode decimal digit. -/
def pyDigitVal (c : Char) : Option Nat :=
  pyDigitBases.findSome? (fun b =>
    if b ≤ c.toNat ∧ c.toNat ≤ b + 9 then some (c.toNat - b) else none)

/-- The digit part of CPython `int()` for base 10: one or more decimal digits
with single underscores allowed only between digits (PEP 515), i.e. the
grammar digit (underscore? digit)*.  `lastWasDigit` records whether the
previously consumed character was a digit, so a leading, trailing or doubled
underscore fails, as does an empty digit string. -/
def pyDigitsLoop : List Char → Int → Bool → Option Int
  | [], acc, lastWasDigit => if lastWasDigit then some acc else none
  | c :: rest, acc, lastWasDigit =>
      match pyDigitVal c with
      | some d => pyDigitsLoop rest (10 * acc + (d : Int)) true
      | none =>
          if c == '_' && lastWasDigit then pyDigitsLoop rest acc false
          else none

/-- CPython `int(s)` with base 10 on an already-stripped argument: an
optional single ASCII sign followed by Unicode decimal digits with PEP-515
underscore grouping.  Returns `none` where CPython raises `ValueError`. -/
def pyParseInt (l : List Char) : Option Int :=
  match l with
  | '+' :: rest => pyDigitsLoop rest 0 false
  | '-' :: rest => (pyDigitsLoop rest 0 false).map (fun n => -n)
  | rest => pyDigitsLoop rest 0 false

/-! ## language_handler_v2.py -/

/-- `SUPPORTED_LANGUAGES` from language_handler_v2.py, as the insertion-ordered
list of (code, display name) pairs of the Python dict. -/
def SUPPORTED_LANGUAGES : List (String × String) :=
  [("hi", "हिंदी (Hindi)"),
   ("en", "English"),
   ("mr", "मराठी (Marathi)"),
   ("ta", "தமிழ் (Tamil)"),
   ("te", "తెలుగు (Telugu)"),
   ("bn", "বাংলা (Bengali)"),
   ("gu", "ગુજરાતી (Gujarati)"),
   ("kn", "ಕನ್ನಡ (Kannada)"),
   ("pa", "ਪੰਜਾਬੀ (Punjabi)")]

/-- `get_language_name` from language_handler_v2.py:
`SUPPORTED_LANGUAGES.get(code, {}).get('name', 'Hindi')`. -/
def get_language_name (code : String) : String :=
  match SUPPORTED_LANGUAGES.find? (fun p => p.1 == code) with
  | some p => p.2
  | none => "Hindi"

/-- `get_language_menu` from language_handler_v2.py. -/
def get_language_menu : List Char :=
  "🌐 *Select your preferred language:*\n\n".toList
    ++ (SUPPORTED_LANGUAGES.enum.foldl
          (fun acc p =>
            acc ++ (toString (p.1 + 1)).toList ++ ". ".toList ++ p.2.2.toList ++ "\n".toList)
          [])
    ++ "\nReply with the number (1-9)".toList

/-- `parse_language_choice` from language_handler_v2.py:
`int(choice_text.strip())`, then positional lookup in `SUPPORTED_LANGUAGES`
when the value is between 1 and `len(SUPPORTED_LANGUAGES)`; every failure path
(ValueError from `int`, out-of-range value) returns `None`. -/
def parse_language_choice (choice_text : String) : Option String :=
  match pyParseInt (pyStrip choice_text.toList) with
  | some choice =>
      if 1 ≤ choice ∧ choice ≤ (SUPPORTED_LANGUAGES.length : Int) then
        (SUPPORTED_LANGUAGES.map Prod.fst).get? (choice - 1).toNat
      else none
  | none => none

/-! ## worker_multilang_production.py: language detection -/

/-- Membership of a character in an inclusive Unicode code-point range. -/
def inBlock (lo hi : Nat) (c : Char) : Bool :=
  decide (lo ≤ c.toNat ∧ c.toNat ≤ hi)

/-- The fixed Marathi keyword list of `_detect_language_from_transcript`. -/
def marathi_words : List (List Char) :=
  ["आहे".toList, "होते".toList, "करतो".toList, "करते".toList, "मला".toList, "तुला".toList]

/-- The fixed English stop-word list of `_detect_language_from_transcript`. -/
def english_words : List (List Char) :=
  ["the".toList, "and".toList, "is".toList, "to".toList, "of".toList,
   "in".toList, "for".toList, "with".toList, "on".toList, "at".toList]

def hasDevanagari (t : List Char) : Bool := t.any (inBlock 0x900 0x97F)
def hasTamil (t : List Char) : Bool := t.any (inBlock 0xB80 0xBFF)
def hasTelugu (t : List Char) : Bool := t.any (inBlock 0xC00 0xC7F)
def hasBengali (t : List Char) : Bool := t.any (inBlock 0x980 0x9FF)
def hasGujarati (t : List Char) : Bool := t.any (inBlock 0xA80 0xAFF)
def hasKannada (t : List Char) : Bool := t.any (inBlock 0xC80 0xCFF)
def hasGurmukhi (t : List Char) : Bool := t.any (inBlock 0xA00 0xA7F)

/-- Python substring containment `w in t`, via decidability of `List.IsInfix`. -/
def containsSeq (w t : List Char) : Bool :=
  decide (w <:+: t)

/-- `any(word in transcript for word in marathi_words)`. -/
def marathiHit (t : List Char) : Bool :=
  marathi_words.any (fun w => containsSeq w t)

/-- `sum(1 for word in english_words if word in transcript[:500].lower())`.
`Char.toLower` lower-cases exactly the ASCII letters; the stop-words being
ASCII, this matches Python `.lower()` on the characters that can contribute. -/
def englishCount (t : List Char) : Nat :=
  (english_words.filter (fun w => containsSeq w ((t.take 500).map Char.toLower))).length

/-- `_detect_language_from_transcript` from worker_multilang_production.py. -/
def _detect_language_from_transcript (t : List Char) : String :=
  if t = [] ∨ (pyStrip t).length < 10 then "en"
  else if hasDevanagari t then
    (if marathiHit t then "mr" else "hi")
  else if hasTamil t then "ta"
  else if hasTelugu t then "te"
  else if hasBengali t then "bn"
  else if hasGujarati t then "gu"
  else if hasKannada t then "kn"
  else if hasGurmukhi t then "pa"
  else if 3 ≤ englishCount t then "en"
  else "hi"

/-! ## Data model: the persisted rows touched by the pipeline -/

/-- One `meeting_notes` row, restricted to the columns read or written by the
production worker.  `summary_generated_at` is the idempotency guard column
(`NULL` modelled as `none`); timestamps are abstract naturals. -/
structure MeetingRow where
  phone : String
  transcript : Option (List Char)
  detected_language : Option String
  chosen_language : Option String
  summary : Option (List Char)
  job_state : Option String
  summary_generated_at : Option Nat
deriving DecidableEq

/-- One `users` row, restricted to the columns read or written by the credit
logic.  `credits_remaining FLOAT` is modelled as an exact rational;
`subscription_expiry TIMESTAMP` as an integer instant. -/
structure UserRow where
  credits_remaining : Option ℚ
  subscription_active : Bool
  subscription_expiry : Option ℤ
deriving DecidableEq

/-! ## Outbound message text -/

/-- The error message sent by the outer except-handler of `process_audio_job`. -/
def processing_failed_msg : List Char :=
  "⚠️ Processing failed. Please try again.".toList

/-- The error message sent by the except-handler of `complete_summary_job`. -/
def summary_failed_msg : List Char :=
  "⚠️ Failed to generate summary. Please try again.".toList

/-- The language-menu message of `process_audio_job`. -/
def menu_message (detected : String) : List Char :=
  "🎙️ *Audio transcribed!*\n🔍 Detected: *".toList
    ++ (get_language_name detected).toList
    ++ "*\n\n📝 *Choose summary language:*\n\n".toList
    ++ get_language_menu

/-- The header prepended to the delivered summary in `complete_summary_job`. -/
def summary_header (chosen : String) : List Char :=
  "📝 *Meeting Summary (".toList ++ (get_language_name chosen).toList ++ "):*\n\n".toList

/-! ## worker_multilang_production.py: the two jobs

The meeting row is assumed to exist (the `row is None` early return of both
jobs is not modelled; every claim concerns an existing job).  External
collaborators appear as parameters:
* `payloadSize` — `len(resp.content)` of the downloaded media, in bytes;
* `transcribe` — the outcome of `transcribe_file_multilang` (error = raised);
* `minutes` — the duration estimate produced by the mutagen block;
* `summarize` — the outcome of `summarize_text_multilang`, as a function of
  the transcript column and the requested language, so that two invocations
  with identical arguments observe identical results.
Outbound WhatsApp messages are returned in send order.  The `Except.error`
strings stand for the raised exception (the Python text interpolates sizes
and inner messages; only the fact and the branch are modelled). -/

/-- `process_audio_job` from worker_multilang_production.py.  Returns the
updated meeting row, the updated user row, the messages sent, and the
success/error outcome. -/
def process_audio_job (payloadSize : Nat) (transcribe : Except String (List Char))
    (minutes : ℚ) (note : MeetingRow) (user : Option UserRow) :
    MeetingRow × Option UserRow × List (List Char) × Except String Unit :=
  if 24 * 1024 * 1024 < payloadSize then
    -- `file_size_mb > 24` with `file_size_mb = len(resp.content)/(1024*1024)`
    (note, user, [processing_failed_msg], Except.error "Audio file too large")
  else
    match transcribe with
    | Except.error e => (note, user, [processing_failed_msg], Except.error e)
    | Except.ok t =>
      if t = [] ∨ (pyStrip t).length < 5 then
        (note, user, [processing_failed_msg], Except.error "Transcription failed or too short")
      else
        let detected := _detect_language_from_transcript t
        let note2 : MeetingRow :=
          { note with transcript := some t, detected_language := some detected,
                      job_state := some "awaiting_language_choice" }
        let user2 : Option UserRow :=
          match user with
          | none => none
          | some u =>
            if u.subscription_active then some u
            else some { u with
              credits_remaining := some (max 0 (u.credits_remaining.getD 0 - minutes)) }
        (note2, user2, [menu_message detected], Except.ok ())

/-- `complete_summary_job` from worker_multilang_production.py.  The final
`UPDATE ... WHERE id=%s AND summary_generated_at IS NULL` becomes a guarded
record update; the summary is delivered only in the `rowcount > 0` branch. -/
def complete_summary_job
    (summarize : Option (List Char) → String → Except String (List Char))
    (chosen : String) (now : Nat) (note : MeetingRow) :
    MeetingRow × List (List Char) × Except String String :=
  match summarize note.transcript chosen with
  | Except.error e => (note, [summary_failed_msg], Except.error e)
  | Except.ok s =>
    if s = [] ∨ (pyStrip s).length < 10 then
      (note, [summary_failed_msg], Except.error "Summary generation failed or too short")
    else if note.summary_generated_at = none then
      ({ note with summary := some s, chosen_language := some chosen,
                   job_state := some "completed", summary_generated_at := some now },
       [summary_header chosen ++ s], Except.ok chosen)
    else
      (note, [], Except.ok chosen)

/-! ## db.py: credit ledger -/

/-- The result dict of `decrement_minutes_if_available`. -/
structure DecResult where
  ok : Bool
  deducted : Option ℚ
  remaining : Option ℚ
  reason : Option String
deriving DecidableEq

/-- `decrement_minutes_if_available` from db.py.  `now` models
`datetime.now(timezone.utc)`; a missing user row is lazily created with the
schema/insert defaults (30.0 credits, inactive subscription).  Returns the
settled user row and the result dict. -/
def decrement_minutes_if_available (now : ℤ) (minutes_to_deduct : ℚ)
    (user : Option UserRow) : UserRow × DecResult :=
  let row : UserRow :=
    match user with
    | some u => u
    | none => { credits_remaining := some 30, subscription_active := false,
                subscription_expiry := none }
  let sub_ok : Bool := row.subscription_active &&
    (match row.subscription_expiry with
     | none => true
     | some e => decide (now < e))
  if sub_ok then
    (row, { ok := true, deducted := some 0, remaining := row.credits_remaining,
            reason := none })
  else
    let current : ℚ := row.credits_remaining.getD 0
    if current < minutes_to_deduct then
      (row, { ok := false, deducted := none, remaining := some current,
              reason := some "insufficient_credits" })
    else
      let new_remaining := current - minutes_to_deduct
      ({ row with credits_remaining := some new_remaining },
       { ok := true, deducted := some minutes_to_deduct,
         remaining := some new_remaining, reason := none })

/-! ## utils.py / db.py: webhook dedup -/

/-- Python `s.startswith(pre)`, via decidability of `List.IsPrefix`. -/
def startsWithSeq (pre l : List Char) : Bool :=
  decide (pre <+: l)

/-- `normalize_phone_for_db` from utils.py.  Python `str.isdigit` is modelled
on ASCII digits; the regex `\D` removal becomes a digit filter. -/
def normalize_phone_for_db (raw_phone : String) : String :=
  if raw_phone = "" then raw_phone
  else
    let p := pyStrip raw_phone.toList
    if startsWithSeq "whatsapp:".toList p then String.mk p
    else
      let q := p.filter (fun c => !(c == ' ' || c == '-'))
      let digits :=
        if startsWithSeq "+".toList q then q.drop 1
        else if startsWithSeq "00".toList q
            && !(q.drop 2).isEmpty && (q.drop 2).all Char.isDigit then q.drop 2
        else if !q.isEmpty && q.all Char.isDigit then q
        else q.filter Char.isDigit
      String.mk ("whatsapp:+".toList ++ digits)

/-- One `meeting_notes` row as created by the webhook ingestion path. -/
structure NoteRec where
  id : Nat
  phone : String
  audio_file : Option String
  transcript : Option String
  summary : Option String
  message_sid : Option String
deriving DecidableEq

/-- The `meeting_notes` table for the dedup model: existing rows plus the
sequence counter backing `id SERIAL`. -/
structure NotesDB where
  rows : List NoteRec
  next_id : Nat
deriving DecidableEq

/-- The result dict of `save_meeting_notes_with_sid`. -/
structure SaveResult where
  skipped : Bool
  id : Option Nat
deriving DecidableEq

/-- `save_meeting_notes_with_sid` from db.py: when a truthy `message_sid` is
supplied and a row with that sid exists, skip; otherwise insert a fresh row
(then `RETURNING id`). -/
def save_meeting_notes_with_sid (db : NotesDB) (raw_phone : String)
    (audio_file transcript summary : Option String) (message_sid : Option String) :
    NotesDB × SaveResult :=
  let phone := normalize_phone_for_db raw_phone
  let dup : Bool :=
    match message_sid with
    | some sid => sid ≠ "" && db.rows.any (fun r => r.message_sid == some sid)
    | none => false
  if dup then
    (db, { skipped := true, id := none })
  else
    let r : NoteRec :=
      { id := db.next_id, phone := phone, audio_file := audio_file,
        transcript := transcript, summary := summary, message_sid := message_sid }
    ({ rows := db.rows ++ [r], next_id := db.next_id + 1 },
     { skipped := false, id := some db.next_id })

/-! ## openai_client_multilang.py: summary post-processing -/

/-- `summarize_text_multilang` from openai_client_multilang.py, abstracted
over the chat-completion call: `model_output` is
`response.choices[0].message.content` (error = raised).  The function strips
the output and caps it at 1500 characters, appending an ellipsis. -/
def summarize_text_multilang (model_output : Except String (List Char)) :
    Except String (List Char) :=
  match model_output with
  | Except.error e => Except.error e
  | Except.ok content =>
    let summary := pyStrip content
    Except.ok (if 1500 < summary.length then summary.take 1500 ++ "...".toList else summary)

/-! ## Phase 2: await selection (spec-modelled orchestration) -/

/-- Modelled from the spec: the message indicating the wait for a language
selection timed out (spec section 8, timeout-default scenario); the code that
would send it is not under src/. -/
def timeout_notice_msg : List Char :=
  "⏰ No language selection received in time. Using the default language for your summary.".toList

/-- Modelled from the spec: the Phase-2 await-selection orchestration (spec
section 4.1 Phase 2 and section 8, timeout-default scenario).  The production
worker ends its job after sending the menu, and the reply-webhook handler and
the timeout sweep that invoke `complete_summary_job` are not under src/.
`selection` is the language code of a valid user selection arriving within the
configured timeout (default about 45 s), `none` if the wait timed out;
`stored_pref` is the stored account preference.  On timeout the choice
defaults to the stored preference or to "en", the user is notified that the
timeout occurred, and Phase 3 runs with the defaulted choice. -/
def run_phase2_phase3
    (summarize : Option (List Char) → String → Except String (List Char))
    (now : Nat) (selection : Option String) (stored_pref : Option String)
    (note : MeetingRow) :
    MeetingRow × List (List Char) × Except String String :=
  match selection with
  | some code => complete_summary_job summarize code now note
  | none =>
      let chosen := stored_pref.getD "en"
      let r := complete_summary_job summarize chosen now note
      (r.1, timeout_notice_msg :: r.2.1, r.2.2)

/-! ## Shared concrete sample data for witnesses and counterexamples -/

/-- A transcript passing every length guard and classifying as English. -/
def sampleTranscript : List Char :=
  "the team met on monday and the plan is to ship the feature at the end of the week".toList

/-- A model summary passing the 10-character guard of Phase 3. -/
def sampleSummary : List Char :=
  "Key points: ship the feature next week.".toList

/-- A deterministic summarizer oracle returning `sampleSummary`. -/
def sampleSummarize : Option (List Char) → String → Except String (List Char) :=
  fun _ _ => Except.ok sampleSummary

/-- A job row freshly created by the webhook (state pending, nothing set). -/
def pendingNote : MeetingRow :=
  { phone := "whatsapp:+919876543210", transcript := none, detected_language := none,
    chosen_language := none, summary := none, job_state := some "pending",
    summary_generated_at := none }

/-- A job row that has already completed (summary delivered at time 5). -/
def completedNote : MeetingRow :=
  { phone := "whatsapp:+919876543210", transcript := some sampleTranscript,
    detected_language := some "en", chosen_language := some "en",
    summary := some sampleSummary, job_state := some "completed",
    summary_generated_at := some 5 }

/-- A job row awaiting the language choice. -/
def awaitingNote : MeetingRow :=
  { phone := "whatsapp:+919876543210", transcript := some sampleTranscript,
    detected_language := some "en", chosen_language := none,
    summary := none, job_state := some "awaiting_language_choice",
    summary_generated_at := none }

/-- A user with one credit left and no subscription. -/
def lowCreditUser : UserRow :=
  { credits_remaining := some 1, subscription_active := false, subscription_expiry := none }

/-- A user with an active subscription and no expiry. -/
def activeUser : UserRow :=
  { credits_remaining := some 10, subscription_active := true, subscription_expiry := none }

/-- A user whose subscription flag is still set but whose expiry (time 0) has
passed for any later instant. -/
def expiredSubUser : UserRow :=
  { credits_remaining := some 10, subscription_active := true, subscription_expiry := some 0 }

/-- A 1501-character model output, exceeding the 1500-character summary cap. -/
def bigContent : List Char := List.replicate 1501 'a'

/-! ## Helper lemmas -/

theorem pyStrip_nil : pyStrip [] = [] := rfl

theorem dropWhile_eq_self_of_forall {α : Type} (p : α → Bool) (m : List α)
    (hm : ∀ c ∈ m, p c = false) : m.dropWhile p = m := by
  cases m with
  | nil => rfl
  | cons a as =>
      rw [List.dropWhile_cons, hm a (List.mem_cons_self a as)]
      simp

theorem pyStrip_of_no_space (l : List Char) (h : ∀ c ∈ l, pyIsSpace c = false) :
    pyStrip l = l := by
  unfold pyStrip
  rw [dropWhile_eq_self_of_forall pyIsSpace l h,
      dropWhile_eq_self_of_forall pyIsSpace l.reverse
        (fun c hc => h c (List.mem_reverse.mp hc)),
      List.reverse_reverse]

/-- Phase 3 with a successful, long-enough summary and a NULL guard column:
the conditional update fires and the summary is delivered. -/
theorem csj_commit
    (summarize : Option (List Char) → String → Except String (List Char))
    (chosen : String) (now : Nat) (note : MeetingRow) (s : List Char)
    (hsum : summarize note.transcript chosen = Except.ok s)
    (hlen : ¬(s = [] ∨ (pyStrip s).length < 10))
    (hnull : note.summary_generated_at = none) :
    complete_summary_job summarize chosen now note
      = ({ note with summary := some s, chosen_language := some chosen,
                     job_state := some "completed", summary_generated_at := some now },
         [summary_header chosen ++ s], Except.ok chosen) := by
  unfold complete_summary_job
  rw [hsum]
  simp only [if_neg hlen, hnull]
  simp

/-- Phase 3 with a successful, long-enough summary but the guard column
already set: zero rows are updated, nothing is sent. -/
theorem csj_noop
    (summarize : Option (List Char) → String → Except String (List Char))
    (chosen : String) (now : Nat) (note : MeetingRow) (s : List Char)
    (hsum : summarize note.transcript chosen = Except.ok s)
    (hlen : ¬(s = [] ∨ (pyStrip s).length < 10))
    (hset : note.summary_generated_at ≠ none) :
    complete_summary_job summarize chosen now note = (note, [], Except.ok chosen) := by
  unfold complete_summary_job
  rw [hsum]
  simp only [if_neg hlen, if_neg hset]

/-! ## C1: idempotent Phase-3 completion -/

/-- C1: the completing write of `complete_summary_job` only sets `summary`,
`chosen_language`, state `completed` and `summary_generated_at` under the
condition that `summary_generated_at` is still NULL; a second invocation with
identical arguments finds the guard set, performs a zero-row no-op, and sends
no message, so the summary is delivered exactly once, and only by the
invocation whose conditional update succeeded. -/
theorem c1_completion_idempotent
    (summarize : Option (List Char) → String → Except String (List Char))
    (chosen : String) (now now2 : Nat) (note : MeetingRow) (s : List Char)
    (hsum : summarize note.transcript chosen = Except.ok s)
    (hlen : ¬(s = [] ∨ (pyStrip s).length < 10))
    (hnull : note.summary_generated_at = none) :
    (complete_summary_job summarize chosen now note).1
      = { note with summary := some s, chosen_language := some chosen,
                    job_state := some "completed", summary_generated_at := some now }
    ∧ (complete_summary_job summarize chosen now note).2.1
        = [summary_header chosen ++ s]
    ∧ complete_summary_job summarize chosen now2
        (complete_summary_job summarize chosen now note).1
      = ((complete_summary_job summarize chosen now note).1, [], Except.ok chosen) := by
  have h1 := csj_commit summarize chosen now note s hsum hlen hnull
  refine ⟨by rw [h1], by rw [h1], ?_⟩
  rw [h1]
  exact csj_noop summarize chosen now2 _ s hsum hlen (by simp)

/-- C1 witness: the two-phase completion at a concrete awaiting job. -/
theorem c1_witness :
    (complete_summary_job sampleSummarize "en" 7 awaitingNote).1
      = { awaitingNote with summary := some sampleSummary, chosen_language := some "en",
                            job_state := some "completed", summary_generated_at := some 7 }
    ∧ (complete_summary_job sampleSummarize "en" 7 awaitingNote).2.1
        = [summary_header "en" ++ sampleSummary]
    ∧ complete_summary_job sampleSummarize "en" 9
        (complete_summary_job sampleSummarize "en" 7 awaitingNote).1
      = ((complete_summary_job sampleSummarize "en" 7 awaitingNote).1, [], Except.ok "en") :=
  c1_completion_idempotent sampleSummarize "en" 7 9 awaitingNote sampleSummary rfl
    (by decide) rfl

/-! ## C2: state monotonicity -/

/-- C2 counterexample: the transcription write of `process_audio_job` is not
conditioned on the current state, so re-invoking it on a job whose row is
already `completed` moves `job_state` back to `awaiting_language_choice`. -/
theorem c2_counterexample :
    completedNote.job_state = some "completed"
    ∧ (process_audio_job 1000 (Except.ok sampleTranscript) 1 completedNote none).1.job_state
        = some "awaiting_language_choice"
    ∧ (some "awaiting_language_choice" : Option String) ≠ some "completed" := by
  refine ⟨rfl, ?_, by decide⟩
  decide

/-- C2 amended: `complete_summary_job` never moves a row out of `completed`,
and once `summary_generated_at` is set it leaves the row untouched entirely;
`process_audio_job` either leaves `job_state` unchanged or sets it to
`awaiting_language_choice` — so monotonicity holds for every sequence in
which `process_audio_job` is not re-invoked on an already-completed job, but
its unconditional write breaks monotonicity when it is. -/
theorem c2_amended_monotonic
    (summarize : Option (List Char) → String → Except String (List Char))
    (chosen : String) (now : Nat)
    (payloadSize : Nat) (transcribe : Except String (List Char)) (minutes : ℚ)
    (note : MeetingRow) (user : Option UserRow) :
    (note.job_state = some "completed" →
      (complete_summary_job summarize chosen now note).1.job_state = some "completed")
    ∧ (note.summary_generated_at ≠ none →
      (complete_summary_job summarize chosen now note).1 = note)
    ∧ ((process_audio_job payloadSize transcribe minutes note user).1.job_state
          = note.job_state
      ∨ (process_audio_job payloadSize transcribe minutes note user).1.job_state
          = some "awaiting_language_choice") := by
  refine ⟨?_, ?_, ?_⟩
  · intro hc
    unfold complete_summary_job
    cases hm : summarize note.transcript chosen with
    | error e => exact hc
    | ok s =>
        dsimp only
        by_cases hg : s = [] ∨ (pyStrip s).length < 10
        · rw [if_pos hg]; exact hc
        · rw [if_neg hg]
          by_cases hn : note.summary_generated_at = none
          · rw [if_pos hn]
          · rw [if_neg hn]; exact hc
  · intro hset
    unfold complete_summary_job
    cases hm : summarize note.transcript chosen with
    | error e => rfl
    | ok s =>
        dsimp only
        by_cases hg : s = [] ∨ (pyStrip s).length < 10
        · rw [if_pos hg]
        · rw [if_neg hg, if_neg hset]
  · unfold process_audio_job
    by_cases hs : 24 * 1024 * 1024 < payloadSize
    · rw [if_pos hs]; exact Or.inl rfl
    · rw [if_neg hs]
      cases transcribe with
      | error e => exact Or.inl rfl
      | ok t =>
          dsimp only
          by_cases hg : t = [] ∨ (pyStrip t).length < 5
          · rw [if_pos hg]; exact Or.inl rfl
          · rw [if_neg hg]; exact Or.inr rfl

/-- C2 witness: the amended monotonicity facts at a concrete completed job. -/
theorem c2_witness :
    (complete_summary_job sampleSummarize "en" 11 completedNote).1.job_state
      = some "completed"
    ∧ (complete_summary_job sampleSummarize "en" 11 completedNote).1 = completedNote :=
  ⟨(c2_amended_monotonic sampleSummarize "en" 11 1000 (Except.ok sampleTranscript) 1
      completedNote none).1 rfl,
   (c2_amended_monotonic sampleSummarize "en" 11 1000 (Except.ok sampleTranscript) 1
      completedNote none).2.1 (by decide)⟩

/-! ## C3: credit floor -/

/-- C3 counterexample: `decrement_minutes_if_available` does not floor at
zero; with 1 credit remaining and a 2-minute deduction it refuses
(`ok=False`, reason `insufficient_credits`) and leaves the balance at 1,
whereas the claim demands a balance of `max 0 (1 - 2) = 0`. -/
theorem c3_counterexample :
    (decrement_minutes_if_available 0 2 (some lowCreditUser)).2.ok = false
    ∧ (decrement_minutes_if_available 0 2 (some lowCreditUser)).2.reason
        = some "insufficient_credits"
    ∧ (decrement_minutes_if_available 0 2 (some lowCreditUser)).1 = lowCreditUser
    ∧ lowCreditUser.credits_remaining = some 1
    ∧ (1 : ℚ) ≠ max 0 (1 - 2) := by
  refine ⟨by decide, by decide, by decide, rfl, by norm_num [max_def]⟩

/-- C3 amended: the inline deduction of `process_audio_job` floors at
`max 0 (balance - minutes)`, is never negative, and never fails the job; the
`decrement_minutes_if_available` helper in db.py instead refuses the
deduction unchanged (`ok=False`) when fewer credits remain than requested,
deducts in full otherwise, and in either case never drives a non-negative
balance negative. -/
theorem c3_amended_floor
    (payloadSize : Nat) (t : List Char) (minutes : ℚ) (note : MeetingRow) (u : UserRow)
    (hsize : ¬ 24 * 1024 * 1024 < payloadSize)
    (hguard : ¬(t = [] ∨ (pyStrip t).length < 5))
    (hsub : u.subscription_active = false) :
    (process_audio_job payloadSize (Except.ok t) minutes note (some u)).2.1
      = some { u with
          credits_remaining := some (max 0 (u.credits_remaining.getD 0 - minutes)) }
    ∧ (0 : ℚ) ≤ max 0 (u.credits_remaining.getD 0 - minutes)
    ∧ (process_audio_job payloadSize (Except.ok t) minutes note (some u)).2.2.1
        = [menu_message (_detect_language_from_transcript t)]
    ∧ (∀ now m, u.credits_remaining.getD 0 < m →
        decrement_minutes_if_available now m (some u)
          = (u, { ok := false, deducted := none,
                  remaining := some (u.credits_remaining.getD 0),
                  reason := some "insufficient_credits" }))
    ∧ (∀ now m, ¬ u.credits_remaining.getD 0 < m →
        decrement_minutes_if_available now m (some u)
          = ({ u with credits_remaining := some (u.credits_remaining.getD 0 - m) },
             { ok := true, deducted := some m,
               remaining := some (u.credits_remaining.getD 0 - m), reason := none }))
    ∧ (∀ now m, 0 ≤ u.credits_remaining.getD 0 →
        0 ≤ (decrement_minutes_if_available now m (some u)).1.credits_remaining.getD 0) := by
  have hworker :
      process_audio_job payloadSize (Except.ok t) minutes note (some u)
        = ({ note with
              transcript := some t,
              detected_language := some (_detect_language_from_transcript t),
              job_state := some "awaiting_language_choice" },
           some { u with
              credits_remaining := some (max 0 (u.credits_remaining.getD 0 - minutes)) },
           [menu_message (_detect_language_from_transcript t)], Except.ok ()) := by
    unfold process_audio_job
    rw [if_neg hsize]
    dsimp only
    rw [if_neg hguard, hsub]
    simp
  have hskipfalse : ∀ now : ℤ, (u.subscription_active &&
      (match u.subscription_expiry with
       | none => true
       | some e => decide (now < e))) = false := by
    intro now; rw [hsub]; rfl
  refine ⟨by rw [hworker], le_max_left 0 _, by rw [hworker], ?_, ?_, ?_⟩
  · intro now m hlt
    unfold decrement_minutes_if_available
    dsimp only
    rw [hskipfalse now]
    simp only [Bool.false_eq_true, if_false, if_pos hlt]
  · intro now m hge
    unfold decrement_minutes_if_available
    dsimp only
    rw [hskipfalse now]
    simp only [Bool.false_eq_true, if_false, if_neg hge]
  · intro now m hnn
    unfold decrement_minutes_if_available
    dsimp only
    rw [hskipfalse now]
    simp only [Bool.false_eq_true, if_false]
    by_cases hlt : u.credits_remaining.getD 0 < m
    · rw [if_pos hlt]; exact hnn
    · rw [if_neg hlt]
      simp only [Option.getD_some]
      linarith [not_lt.mp hlt]

/-- C3 witness: concrete deduction outcomes at a one-credit account. -/
theorem c3_witness :
    (process_audio_job 1000 (Except.ok sampleTranscript) 5 pendingNote
        (some lowCreditUser)).2.1
      = some { lowCreditUser with
          credits_remaining := some (max 0 (lowCreditUser.credits_remaining.getD 0 - 5)) }
    ∧ decrement_minutes_if_available 0 2 (some lowCreditUser)
        = (lowCreditUser,
           { ok := false, deducted := none,
             remaining := some (lowCreditUser.credits_remaining.getD 0),
             reason := some "insufficient_credits" }) :=
  ⟨(c3_amended_floor 1000 sampleTranscript 5 pendingNote lowCreditUser (by decide)
      (by decide) rfl).1,
   (c3_amended_floor 1000 sampleTranscript 5 pendingNote lowCreditUser (by decide)
      (by decide) rfl).2.2.2.1 0 2 (by decide)⟩

/-! ## C4: subscription exemption -/

/-- C4 counterexample: the deduction performed after transcription in
`process_audio_job` reads only `subscription_active` and never the expiry, so
a user whose flag is set but whose expiry (time 0) is already in the past at
time 1 is still exempt: the balance stays at 10 instead of dropping to 5. -/
theorem c4_counterexample :
    expiredSubUser.subscription_active = true
    ∧ expiredSubUser.subscription_expiry = some 0
    ∧ (0 : ℤ) ≤ 1
    ∧ (process_audio_job 1000 (Except.ok sampleTranscript) 5 pendingNote
        (some expiredSubUser)).2.1 = some expiredSubUser
    ∧ expiredSubUser.credits_remaining
        ≠ some (expiredSubUser.credits_remaining.getD 0 - 5) := by
  refine ⟨rfl, rfl, by decide, by decide, ?_⟩
  simp only [expiredSubUser, Option.getD_some, ne_eq, Option.some_inj]
  norm_num

/-- C4 amended: in `process_audio_job` the post-transcription deduction is
skipped whenever `subscription_active` is set, regardless of
`subscription_expiry`; only `decrement_minutes_if_available` in db.py
implements the expiry rule — active and (null or future) expiry skips with
zero deducted, while an active but expired subscription is deducted normally
(when sufficient credits remain). -/
theorem c4_amended_subscription
    (payloadSize : Nat) (transcribe : Except String (List Char)) (minutes : ℚ)
    (note : MeetingRow) (u : UserRow) (now : ℤ) (m : ℚ)
    (hactive : u.subscription_active = true) :
    (process_audio_job payloadSize transcribe minutes note (some u)).2.1 = some u
    ∧ ((u.subscription_expiry = none ∨ (∃ e, u.subscription_expiry = some e ∧ now < e)) →
        decrement_minutes_if_available now m (some u)
          = (u, { ok := true, deducted := some 0, remaining := u.credits_remaining,
                  reason := none }))
    ∧ (∀ e, u.subscription_expiry = some e → e ≤ now → ¬ u.credits_remaining.getD 0 < m →
        decrement_minutes_if_available now m (some u)
          = ({ u with credits_remaining := some (u.credits_remaining.getD 0 - m) },
             { ok := true, deducted := some m,
               remaining := some (u.credits_remaining.getD 0 - m), reason := none })) := by
  refine ⟨?_, ?_, ?_⟩
  · unfold process_audio_job
    by_cases hs : 24 * 1024 * 1024 < payloadSize
    · rw [if_pos hs]
    · rw [if_neg hs]
      cases transcribe with
      | error e => rfl
      | ok t =>
          dsimp only
          by_cases hg : t = [] ∨ (pyStrip t).length < 5
          · rw [if_pos hg]
          · rw [if_neg hg, hactive]
            simp
  · intro hfuture
    have hskip : (u.subscription_active &&
        (match u.subscription_expiry with
         | none => true
         | some e => decide (now < e))) = true := by
      rw [hactive]
      rcases hfuture with hnone | ⟨e, he, hlt⟩
      · rw [hnone]; rfl
      · rw [he]
        simp [hlt]
    unfold decrement_minutes_if_available
    dsimp only
    rw [hskip]
    simp
  · intro e he hexp hge
    have hskip : (u.subscription_active &&
        (match u.subscription_expiry with
         | none => true
         | some e => decide (now < e))) = false := by
      rw [hactive, he]
      simp [not_lt.mpr hexp]
    unfold decrement_minutes_if_available
    dsimp only
    rw [hskip]
    simp only [Bool.false_eq_true, if_false, if_neg hge]

/-- C4 witness: the exemption at an active unexpired account and the normal
deduction at an active but expired account. -/
theorem c4_witness :
    (process_audio_job 1000 (Except.ok sampleTranscript) 5 pendingNote
        (some activeUser)).2.1 = some activeUser
    ∧ decrement_minutes_if_available 3 5 (some activeUser)
        = (activeUser, { ok := true, deducted := some 0,
                         remaining := activeUser.credits_remaining, reason := none })
    ∧ decrement_minutes_if_available 1 5 (some expiredSubUser)
        = ({ expiredSubUser with
              credits_remaining := some (expiredSubUser.credits_remaining.getD 0 - 5) },
           { ok := true, deducted := some 5,
             remaining := some (expiredSubUser.credits_remaining.getD 0 - 5),
             reason := none }) :=
  ⟨(c4_amended_subscription 1000 (Except.ok sampleTranscript) 5 pendingNote activeUser
      3 5 rfl).1,
   (c4_amended_subscription 1000 (Except.ok sampleTranscript) 5 pendingNote activeUser
      3 5 rfl).2.1 (Or.inl rfl),
   (c4_amended_subscription 1000 (Except.ok sampleTranscript) 5 pendingNote expiredSubUser
      1 5 rfl).2.2 0 rfl (by decide) (by decide)⟩

/-! ## C5: webhook dedup -/

/-- C5: two deliveries carrying the same non-empty `message_sid` against a
table with no row for that sid: the first call inserts exactly one row and
reports it new; the second call is detected before any insert, reports
`skipped`, and leaves the table unchanged, so exactly one row with that sid
exists. -/
theorem c5_dedup_enforcement
    (db : NotesDB) (phone1 phone2 : String) (a1 t1 s1 a2 t2 s2 : Option String)
    (sid : String) (hsid : sid ≠ "")
    (hfresh : ∀ r ∈ db.rows, r.message_sid ≠ some sid) :
    (save_meeting_notes_with_sid db phone1 a1 t1 s1 (some sid)).2.skipped = false
    ∧ (save_meeting_notes_with_sid db phone1 a1 t1 s1 (some sid)).2.id = some db.next_id
    ∧ (save_meeting_notes_with_sid
        (save_meeting_notes_with_sid db phone1 a1 t1 s1 (some sid)).1
        phone2 a2 t2 s2 (some sid)).2.skipped = true
    ∧ (save_meeting_notes_with_sid
        (save_meeting_notes_with_sid db phone1 a1 t1 s1 (some sid)).1
        phone2 a2 t2 s2 (some sid)).1
      = (save_meeting_notes_with_sid db phone1 a1 t1 s1 (some sid)).1
    ∧ ((save_meeting_notes_with_sid db phone1 a1 t1 s1 (some sid)).1.rows.filter
        (fun r => r.message_sid == some sid)).length = 1 := by
  have hany : db.rows.any (fun r => r.message_sid == some sid) = false := by
    rw [List.any_eq_false]
    intro r hr
    simpa using hfresh r hr
  have hdup1 : (sid ≠ "" && db.rows.any (fun r => r.message_sid == some sid)) = false := by
    rw [hany, Bool.and_false]
  have h1 : save_meeting_notes_with_sid db phone1 a1 t1 s1 (some sid)
      = ({ rows := db.rows ++
            [{ id := db.next_id, phone := normalize_phone_for_db phone1,
               audio_file := a1, transcript := t1, summary := s1,
               message_sid := some sid }],
           next_id := db.next_id + 1 },
         { skipped := false, id := some db.next_id }) := by
    unfold save_meeting_notes_with_sid
    dsimp only
    rw [hdup1]
    simp
  have hany2 : ((db.rows ++
      [({ id := db.next_id, phone := normalize_phone_for_db phone1,
          audio_file := a1, transcript := t1, summary := s1,
          message_sid := some sid } : NoteRec)]).any
        (fun r => r.message_sid == some sid)) = true := by
    rw [List.any_append, hany]
    simp
  have hdup2 : (sid ≠ "" &&
      (db.rows ++
        [({ id := db.next_id, phone := normalize_phone_for_db phone1,
            audio_file := a1, transcript := t1, summary := s1,
            message_sid := some sid } : NoteRec)]).any
          (fun r => r.message_sid == some sid)) = true := by
    rw [hany2, Bool.and_true]
    simpa using hsid
  have h2 : save_meeting_notes_with_sid
      (save_meeting_notes_with_sid db phone1 a1 t1 s1 (some sid)).1
      phone2 a2 t2 s2 (some sid)
      = ((save_meeting_notes_with_sid db phone1 a1 t1 s1 (some sid)).1,
         { skipped := true, id := none }) := by
    rw [h1]
    unfold save_meeting_notes_with_sid
    dsimp only
    rw [hdup2]
    simp
  have hfilter : ((save_meeting_notes_with_sid db phone1 a1 t1 s1 (some sid)).1.rows.filter
      (fun r => r.message_sid == some sid)).length = 1 := by
    rw [h1]
    dsimp only
    rw [List.filter_append]
    have hnil : db.rows.filter (fun r => r.message_sid == some sid) = [] := by
      rw [List.filter_eq_nil_iff]
      intro r hr
      simpa using hfresh r hr
    rw [hnil]
    simp
  exact ⟨by rw [h1], by rw [h1], by rw [h2], by rw [h2], hfilter⟩

/-- C5 witness: the dedup behavior on an initially empty table. -/
theorem c5_witness :
    (save_meeting_notes_with_sid { rows := [], next_id := 1 } "+919876543210"
        none none none (some "SM1")).2.skipped = false
    ∧ (save_meeting_notes_with_sid { rows := [], next_id := 1 } "+919876543210"
        none none none (some "SM1")).2.id = some 1
    ∧ (save_meeting_notes_with_sid
        (save_meeting_notes_with_sid { rows := [], next_id := 1 } "+919876543210"
          none none none (some "SM1")).1
        "whatsapp:+919876543210" none none none (some "SM1")).2.skipped = true
    ∧ (save_meeting_notes_with_sid
        (save_meeting_notes_with_sid { rows := [], next_id := 1 } "+919876543210"
          none none none (some "SM1")).1
        "whatsapp:+919876543210" none none none (some "SM1")).1
      = (save_meeting_notes_with_sid { rows := [], next_id := 1 } "+919876543210"
          none none none (some "SM1")).1
    ∧ ((save_meeting_notes_with_sid { rows := [], next_id := 1 } "+919876543210"
        none none none (some "SM1")).1.rows.filter
          (fun r => r.message_sid == some "SM1")).length = 1 :=
  c5_dedup_enforcement { rows := [], next_id := 1 } "+919876543210"
    "whatsapp:+919876543210" none none none none none none "SM1" (by decide)
    (by intro r hr; cases hr)

/-! ## C6: language detection -/

/-- Above the 10-character guard, detection is pure Unicode-block dispatch. -/
theorem detect_eq_of_ge (t : List Char) (h : 10 ≤ (pyStrip t).length) :
    _detect_language_from_transcript t =
      (if hasDevanagari t then (if marathiHit t then "mr" else "hi")
       else if hasTamil t then "ta"
       else if hasTelugu t then "te"
       else if hasBengali t then "bn"
       else if hasGujarati t then "gu"
       else if hasKannada t then "kn"
       else if hasGurmukhi t then "pa"
       else if 3 ≤ englishCount t then "en"
       else "hi") := by
  have hne : ¬(t = [] ∨ (pyStrip t).length < 10) := by
    rintro (rfl | hlt)
    · simp [pyStrip_nil] at h
    · omega
  unfold _detect_language_from_transcript
  rw [if_neg hne]

/-- C6 amended: detection is a pure total function, but inputs whose stripped
length is below 10 characters (the empty string included) short-circuit to
"en" before any script inspection; above that guard the claimed behavior
holds: Devanagari dispatches to "mr" on a Marathi keyword hit else "hi", each
other supported non-Latin block returns its code in priority order, and
otherwise three distinct stop-word hits in the lowercased first 500
characters give "en", else "hi". -/
theorem c6_amended_detection (t : List Char) :
    ((pyStrip t).length < 10 → _detect_language_from_transcript t = "en")
    ∧ (10 ≤ (pyStrip t).length →
       ((hasDevanagari t = true → marathiHit t = true →
           _detect_language_from_transcript t = "mr")
        ∧ (hasDevanagari t = true → marathiHit t = false →
           _detect_language_from_transcript t = "hi")
        ∧ (hasDevanagari t = false → hasTamil t = true →
           _detect_language_from_transcript t = "ta")
        ∧ (hasDevanagari t = false → hasTamil t = false → hasTelugu t = true →
           _detect_language_from_transcript t = "te")
        ∧ (hasDevanagari t = false → hasTamil t = false → hasTelugu t = false →
           hasBengali t = true → _detect_language_from_transcript t = "bn")
        ∧ (hasDevanagari t = false → hasTamil t = false → hasTelugu t = false →
           hasBengali t = false → hasGujarati t = true →
           _detect_language_from_transcript t = "gu")
        ∧ (hasDevanagari t = false → hasTamil t = false → hasTelugu t = false →
           hasBengali t = false → hasGujarati t = false → hasKannada t = true →
           _detect_language_from_transcript t = "kn")
        ∧ (hasDevanagari t = false → hasTamil t = false → hasTelugu t = false →
           hasBengali t = false → hasGujarati t = false → hasKannada t = false →
           hasGurmukhi t = true → _detect_language_from_transcript t = "pa")
        ∧ (hasDevanagari t = false → hasTamil t = false → hasTelugu t = false →
           hasBengali t = false → hasGujarati t = false → hasKannada t = false →
           hasGurmukhi t = false → 3 ≤ englishCount t →
           _detect_language_from_transcript t = "en")
        ∧ (hasDevanagari t = false → hasTamil t = false → hasTelugu t = false →
           hasBengali t = false → hasGujarati t = false → hasKannada t = false →
           hasGurmukhi t = false → englishCount t < 3 →
           _detect_language_from_transcript t = "hi"))) := by
  constructor
  · intro hlt
    unfold _detect_language_from_transcript
    rw [if_pos (Or.inr hlt)]
  · intro h10
    have key := detect_eq_of_ge t h10
    refine ⟨?_, ?_, ?_, ?_, ?_, ?_, ?_, ?_, ?_, ?_⟩ <;>
      intros <;> simp_all

/-- C6 counterexample: the three-character Devanagari input that is exactly
the Marathi keyword is classified "en" by the length guard, where the
claimed block-first rule would give "mr". -/
theorem c6_counterexample :
    hasDevanagari "आहे".toList = true
    ∧ marathiHit "आहे".toList = true
    ∧ _detect_language_from_transcript "आहे".toList = "en"
    ∧ ("en" : String) ≠ "mr" := by
  refine ⟨by decide, by decide, by decide, by decide⟩

set_option maxRecDepth 8000 in
/-- C6 witness: the amended characterization at a Marathi sentence above the
guard and at an English sentence above the guard. -/
theorem c6_witness :
    _detect_language_from_transcript "आहे मला जायचे".toList = "mr"
    ∧ _detect_language_from_transcript sampleTranscript = "en" :=
  ⟨((c6_amended_detection "आहे मला जायचे".toList).2 (by decide)).1 (by decide) (by decide),
   (((((((((c6_amended_detection sampleTranscript).2 (by decide)).2.2.2.2.2.2.2.2.1)))))))
     (by decide) (by decide) (by decide) (by decide) (by decide) (by decide) (by decide)
     (by decide)⟩

/-! ## C7: timeout defaulting (spec-modelled orchestration) -/

/-- C7: for a job awaiting its language choice with no valid selection
arriving within the timeout, the choice defaults to the stored preference or
"en", the job completes through the Phase-3 conditional write, and the user
receives the timeout notice before the summary message. -/
theorem c7_timeout_default
    (summarize : Option (List Char) → String → Except String (List Char))
    (now : Nat) (stored_pref : Option String) (note : MeetingRow) (s : List Char)
    (hsum : summarize note.transcript (stored_pref.getD "en") = Except.ok s)
    (hlen : ¬(s = [] ∨ (pyStrip s).length < 10))
    (hstate : note.job_state = some "awaiting_language_choice")
    (hnull : note.summary_generated_at = none) :
    (run_phase2_phase3 summarize now none stored_pref note).1.chosen_language
        = some (stored_pref.getD "en")
    ∧ (run_phase2_phase3 summarize now none stored_pref note).1.job_state
        = some "completed"
    ∧ (run_phase2_phase3 summarize now none stored_pref note).2.1
        = [timeout_notice_msg, summary_header (stored_pref.getD "en") ++ s] := by
  have hcommit := csj_commit summarize (stored_pref.getD "en") now note s hsum hlen hnull
  unfold run_phase2_phase3
  dsimp only
  rw [hcommit]
  exact ⟨rfl, rfl, rfl⟩

/-- C7 witness: the timeout default at a concrete awaiting job with no stored
preference. -/
theorem c7_witness :
    (run_phase2_phase3 sampleSummarize 13 none none awaitingNote).1.chosen_language
        = some ((none : Option String).getD "en")
    ∧ (run_phase2_phase3 sampleSummarize 13 none none awaitingNote).1.job_state
        = some "completed"
    ∧ (run_phase2_phase3 sampleSummarize 13 none none awaitingNote).2.1
        = [timeout_notice_msg,
           summary_header ((none : Option String).getD "en") ++ sampleSummary] :=
  c7_timeout_default sampleSummarize 13 none awaitingNote sampleSummary rfl
    (by decide) rfl rfl

/-! ## C8: media size guard -/

/-- C8 counterexample: an oversized download leaves `job_state` at `pending`
rather than `failed`, and a 64-byte payload is not rejected: it proceeds
through transcription to `awaiting_language_choice`. -/
theorem c8_counterexample :
    (process_audio_job (30 * 1024 * 1024) (Except.ok sampleTranscript) 1
        pendingNote none).1.job_state = some "pending"
    ∧ (some "pending" : Option String) ≠ some "failed"
    ∧ 64 < 128
    ∧ (process_audio_job 64 (Except.ok sampleTranscript) 1
        pendingNote none).1.job_state = some "awaiting_language_choice" := by
  refine ⟨by decide, by decide, by decide, by decide⟩

/-- C8 amended: a payload over 24 MB aborts `process_audio_job` before
transcription with exactly one user-facing error message and no credit
deduction, but the row is left completely unchanged — `job_state` is not set
to `failed` — and no minimum-size check exists: payloads under 128 bytes are
processed normally. -/
theorem c8_amended_oversize
    (payloadSize : Nat) (transcribe : Except String (List Char)) (minutes : ℚ)
    (note : MeetingRow) (user : Option UserRow)
    (hsize : 24 * 1024 * 1024 < payloadSize) :
    process_audio_job payloadSize transcribe minutes note user
      = (note, user, [processing_failed_msg], Except.error "Audio file too large") := by
  unfold process_audio_job
  rw [if_pos hsize]

/-- C8 witness: the oversize abort at a 30 MB payload. -/
theorem c8_witness :
    process_audio_job (30 * 1024 * 1024) (Except.ok sampleTranscript) 1 pendingNote
        (some lowCreditUser)
      = (pendingNote, some lowCreditUser, [processing_failed_msg],
         Except.error "Audio file too large") :=
  c8_amended_oversize (30 * 1024 * 1024) (Except.ok sampleTranscript) 1 pendingNote
    (some lowCreditUser) (by decide)

/-! ## C9: language-choice parsing -/

/-- C9: `parse_language_choice` yields the code at the given position of the
fixed nine-language list exactly when the stripped reply parses under CPython
`int()` as an integer between 1 and 9 — including its PEP-515 underscore
grouping ("0_1" parses to 1, position 1 is "hi") and non-ASCII decimal digits
(Devanagari "१" parses to 1) — and yields no choice on every other input,
never raising; reply "2" maps to "en" (position 2 of the menu). -/
theorem c9_parse_characterization :
    (∀ (s : String) (c : String),
      parse_language_choice s = some c ↔
        ∃ n : Int, pyParseInt (pyStrip s.toList) = some n ∧ 1 ≤ n ∧ n ≤ 9
          ∧ (SUPPORTED_LANGUAGES.map Prod.fst).get? (n - 1).toNat = some c)
    ∧ parse_language_choice "2" = some "en"
    ∧ parse_language_choice "abc" = none
    ∧ parse_language_choice "0" = none
    ∧ parse_language_choice "10" = none
    ∧ parse_language_choice " 3 " = some "mr"
    ∧ parse_language_choice "0_1" = some "hi"
    ∧ parse_language_choice "१" = some "hi"
    ∧ parse_language_choice "1_" = none := by
  refine ⟨?_, by decide, by decide, by decide, by decide, by decide, by decide,
    by decide, by decide⟩
  intro s c
  unfold parse_language_choice
  cases h : pyParseInt (pyStrip s.toList) with
  | none => simp
  | some n =>
      dsimp only
      by_cases hr : 1 ≤ n ∧ n ≤ (SUPPORTED_LANGUAGES.length : Int)
      · rw [if_pos hr]
        constructor
        · intro hget
          exact ⟨n, rfl, hr.1, by simpa using hr.2, hget⟩
        · rintro ⟨m, hm, h1, h9, hget⟩
          cases hm
          exact hget
      · rw [if_neg hr]
        constructor
        · intro hnone
          cases hnone
        · rintro ⟨m, hm, h1, h9, hget⟩
          cases hm
          exact absurd ⟨h1, by simpa using h9⟩ hr

/-! ## C10: summary length cap -/

/-- C10: on a successful model call, `summarize_text_multilang` returns the
stripped model output unchanged when its length is at most 1500, and exactly
its first 1500 characters followed by "..." (total 1503) when longer, so the
delivered summary never exceeds 1503 characters. -/
theorem c10_summary_cap (content : List Char) :
    (1500 < (pyStrip content).length →
      summarize_text_multilang (Except.ok content)
        = Except.ok ((pyStrip content).take 1500 ++ "...".toList)
      ∧ ((pyStrip content).take 1500 ++ "...".toList).length = 1503)
    ∧ ((pyStrip content).length ≤ 1500 →
      summarize_text_multilang (Except.ok content) = Except.ok (pyStrip content))
    ∧ (∀ out, summarize_text_multilang (Except.ok content) = Except.ok out →
        out.length ≤ 1503) := by
  refine ⟨?_, ?_, ?_⟩
  · intro h
    constructor
    · unfold summarize_text_multilang
      dsimp only
      rw [if_pos h]
    · rw [List.length_append, List.length_take,
          min_eq_left (le_of_lt h)]
      rfl
  · intro h
    unfold summarize_text_multilang
    dsimp only
    rw [if_neg (not_lt.mpr h)]
  · intro out hout
    unfold summarize_text_multilang at hout
    dsimp only at hout
    by_cases h : 1500 < (pyStrip content).length
    · rw [if_pos h] at hout
      cases hout
      rw [List.length_append, List.length_take, min_eq_left (le_of_lt h)]
      decide
    · rw [if_neg h] at hout
      cases hout
      omega

set_option maxRecDepth 20000 in
/-- C10 witness: the cap at a 1501-character model output. -/
theorem c10_witness :
    summarize_text_multilang (Except.ok bigContent)
      = Except.ok ((pyStrip bigContent).take 1500 ++ "...".toList)
    ∧ ((pyStrip bigContent).take 1500 ++ "...".toList).length = 1503 :=
  (c10_summary_cap bigContent).1 (by
    have hnos : pyStrip bigContent = bigContent :=
      pyStrip_of_no_space bigContent (fun c hc => by
        have hc2 : c = 'a' :=
          List.eq_of_mem_replicate (show c ∈ List.replicate 1501 'a' from hc)
        rw [hc2]
        decide)
    rw [hnos]
    show 1500 < (List.replicate 1501 'a').length
    rw [List.length_replicate]
    omega)
